import Mathlib

/-!
Verification development for the PolyMongo multi-database connection manager.

The TypeScript sources are embedded shallowly:
  * JavaScript numbers are modelled as `ℚ` (the scoring arithmetic, priorities
    and timestamps); wherever the source distinguishes `NaN` we use the
    two-constructor type `JSNumber`.
  * The `Map<string, ConnectionInfo>` of live connections is modelled as an
    association list in insertion order (JavaScript `Map` iterates in
    insertion order and keys are unique).
  * `Array.prototype.sort` with a consistent comparator is a stable sort
    (ECMAScript 2019), modelled by `List.insertionSort`, which is stable.
  * Asynchronous I/O outcomes (driver failures, persistence failures) are
    passed in explicitly as oracle arguments; fallible functions return
    `Except`.
  * `Date.now()` is passed explicitly as a `now : ℚ` argument.
-/

/-! ## Constants (src/utils/constants.ts) -/

namespace CONNECTION_STATE

def DISCONNECTED : ℕ := 0

def CONNECTED : ℕ := 1

def CONNECTING : ℕ := 2

def DISCONNECTING : ℕ := 3

end CONNECTION_STATE

namespace PRIORITY

def NEVER_CLOSE : ℚ := -1

def HIGHEST : ℚ := 0

def HIGH : ℚ := 100

def MEDIUM : ℚ := 500

def LOW : ℚ := 1000

def LOWEST : ℚ := 10000

end PRIORITY

namespace SCORING_WEIGHTS

def USE_COUNT_WEIGHT : ℚ := 1

def IDLE_TIME_WEIGHT : ℚ := 1/1000

def PRIORITY_BASE_WEIGHT : ℚ := 1000

end SCORING_WEIGHTS

namespace ERROR_MESSAGES

def INVALID_MONGO_URI : String := "Invalid MongoDB URI provided"

def CONNECTION_FAILED : String := "Failed to establish database connection"

def METADATA_INIT_FAILED : String := "Failed to initialize metadata database"

def INVALID_PRIORITY : String := "Priority must be a number >= -1"

def DB_NAME_REQUIRED : String := "Database name is required"

def MAX_CONNECTIONS_EXCEEDED : String := "Maximum connection limit would be exceeded"

end ERROR_MESSAGES

/-- The JavaScript constant `Number.MAX_SAFE_INTEGER` (2^53 - 1). -/
def NumberMaxSafeInteger : ℚ := 9007199254740991

/-! ## Data model (src/types) -/

/-- Persisted per-database record (`ConnectionMetadata` in src/types). -/
structure ConnectionMetadata where
  dbName : String
  lastUsed : ℚ
  useCount : ℚ
  idleTime : ℚ
  priority : ℚ
  hasActiveWatch : Bool
  createdAt : ℚ
deriving DecidableEq

/-- Live in-memory record per open connection (`ConnectionInfo` in src/types).
`readyState` is the mongoose connection state (1 = CONNECTED), `watchStreams`
is the size of the set of active change streams, `idleTimeoutArmed` records
whether an idle timer registration is pending. -/
structure ConnectionInfo where
  readyState : ℕ
  watchStreams : ℕ
  metadata : ConnectionMetadata
  lastActivity : ℚ
  idleTimeoutArmed : Bool
deriving DecidableEq

/-- Eviction policy selector (`EvictionType` in src/types). -/
inductive EvictionType where
  | manual
  | timeout
  | lru
deriving DecidableEq

/-- Resolved configuration (`ResolvedPolyMongoConfig` in src/types). -/
structure ResolvedPolyMongoConfig where
  mongoURI : String
  metadataDB : String
  defaultDB : String
  idleTimeout : ℚ
  maxConnections : Option ℕ
  cacheConnections : Bool
  disconnectOnIdle : Bool
  evictionType : EvictionType
deriving DecidableEq

/-! ## Scoring engine (src/models/ModelProxy.ts, class ScoringEngine) -/

namespace ScoringEngine

/-- Source: `ScoringEngine.calculatePriorityWeight`. Priority −1 receives
`Number.MAX_SAFE_INTEGER / 2`; otherwise `PRIORITY_BASE_WEIGHT / (priority + 1)`. -/
def calculatePriorityWeight (priority : ℚ) : ℚ :=
  if priority = PRIORITY.NEVER_CLOSE then NumberMaxSafeInteger / 2
  else SCORING_WEIGHTS.PRIORITY_BASE_WEIGHT / (priority + 1)

/-- Source: `ScoringEngine.calculateScore`. -/
def calculateScore (now : ℚ) (connInfo : ConnectionInfo) : ℚ :=
  let idleTime := now - connInfo.lastActivity
  let lifetimeMs := now - connInfo.metadata.createdAt
  let avgInterval := if 0 < connInfo.metadata.useCount then lifetimeMs / connInfo.metadata.useCount else lifetimeMs
  let priorityWeight := calculatePriorityWeight connInfo.metadata.priority
  let useCountScore := connInfo.metadata.useCount / max avgInterval 1
  let idleTimeScore := idleTime * SCORING_WEIGHTS.IDLE_TIME_WEIGHT
  useCountScore - idleTimeScore + priorityWeight

/-- An element of the candidate array `{dbName, score, info}`. -/
structure Candidate where
  dbName : String
  score : ℚ
  info : ConnectionInfo
deriving DecidableEq

/-- The two `continue` guards of the candidate loop in
`ScoringEngine.findEvictionCandidates`: skip watched connections when
`excludeWatched`, and skip priority −1 connections when `excludeWatched`. -/
def keepsCandidate (excludeWatched : Bool) (connInfo : ConnectionInfo) : Bool :=
  if excludeWatched = true ∧ 0 < connInfo.watchStreams then false
  else if connInfo.metadata.priority = PRIORITY.NEVER_CLOSE ∧ excludeWatched = true then false
  else true

/-- Source: `ScoringEngine.findEvictionCandidates`. Builds the candidate array
in map-iteration (= insertion) order and sorts ascending by score with
`candidates.sort((a, b) => a.score - b.score)` — a stable sort. -/
def findEvictionCandidates (now : ℚ) (connections : List (String × ConnectionInfo))
    (excludeWatched : Bool) : List Candidate :=
  let candidates := (connections.filter (fun e => keepsCandidate excludeWatched e.2)).map
    (fun e => { dbName := e.1, score := calculateScore now e.2, info := e.2 : Candidate })
  List.insertionSort (fun a b => a.score ≤ b.score) candidates

/-- Source: `ScoringEngine.selectForEviction`. Strict pass first; if it yields
fewer than `count` candidates, retry including watched (and priority −1)
connections; return the first `count` names. -/
def selectForEviction (now : ℚ) (connections : List (String × ConnectionInfo))
    (count : ℕ) : List String :=
  if count = 0 then []
  else
    let strict := findEvictionCandidates now connections true
    let candidates := if strict.length < count then findEvictionCandidates now connections false else strict
    (candidates.take count).map (fun c => c.dbName)

end ScoringEngine

/-! ## Eviction strategies (src EvictionStrategy module) -/

namespace ManualEvictionStrategy

def shouldEvict (_ : ConnectionInfo) (_ : ℚ) : Bool := false

def selectForEviction (_ : List (String × ConnectionInfo)) (_ : ℕ) : List String := []

end ManualEvictionStrategy

namespace TimeoutEvictionStrategy

/-- Source: `TimeoutEvictionStrategy.shouldEvict`. -/
def shouldEvict (idleTimeout : ℚ) (connInfo : ConnectionInfo) (now : ℚ) : Bool :=
  if connInfo.metadata.priority = PRIORITY.NEVER_CLOSE ∨ 0 < connInfo.watchStreams then false
  else decide (idleTimeout ≤ now - connInfo.lastActivity)

/-- Source: `TimeoutEvictionStrategy.selectForEviction`. Collects the eligible
connections with their idle time, sorts by descending idle time
(`(a, b) => b.idleTime - a.idleTime`, stable), and truncates to `count`. -/
def selectForEviction (idleTimeout now : ℚ) (connections : List (String × ConnectionInfo))
    (count : ℕ) : List String :=
  let candidates := (connections.filter (fun e => shouldEvict idleTimeout e.2 now)).map
    (fun e => (e.1, now - e.2.lastActivity))
  let sorted := List.insertionSort (fun a b : String × ℚ => b.2 ≤ a.2) candidates
  (sorted.take count).map (fun c => c.1)

end TimeoutEvictionStrategy

namespace LRUEvictionStrategy

/-- Source: `LRUEvictionStrategy.shouldEvict`. -/
def shouldEvict (connInfo : ConnectionInfo) : Bool :=
  if connInfo.metadata.priority = PRIORITY.NEVER_CLOSE ∨ 0 < connInfo.watchStreams then false
  else true

/-- Source: `LRUEvictionStrategy.selectForEviction`, delegating to the scoring engine. -/
def selectForEviction (now : ℚ) (connections : List (String × ConnectionInfo))
    (count : ℕ) : List String :=
  ScoringEngine.selectForEviction now connections count

/-- Source: `LRUEvictionStrategy.getScore`. -/
def getScore (now : ℚ) (connInfo : ConnectionInfo) : ℚ :=
  ScoringEngine.calculateScore now connInfo

end LRUEvictionStrategy

namespace EvictionStrategyFactory

/-- Dispatch of `EvictionStrategyFactory.create(...).selectForEviction`. -/
def selectForEviction (t : EvictionType) (idleTimeout now : ℚ)
    (connections : List (String × ConnectionInfo)) (count : ℕ) : List String :=
  match t with
  | .manual => ManualEvictionStrategy.selectForEviction connections count
  | .timeout => TimeoutEvictionStrategy.selectForEviction idleTimeout now connections count
  | .lru => LRUEvictionStrategy.selectForEviction now connections count

end EvictionStrategyFactory

/-! ## Validators (src/utils/validators.ts) -/

/-- A JavaScript `number` argument: either `NaN` or a finite value. -/
inductive JSNumber where
  | nan
  | num (val : ℚ)
deriving DecidableEq

/-- Source: `validatePriority`. Rejects `NaN` and values `< -1`; there is no
integrality check in the source. -/
def validatePriority : JSNumber → Except String Unit
  | .nan => Except.error ERROR_MESSAGES.INVALID_PRIORITY
  | .num q => if q < -1 then Except.error ERROR_MESSAGES.INVALID_PRIORITY else Except.ok ()

/-- JavaScript `s.split(sep)` on a single-character separator, over `List Char`. -/
def splitOnCharList (sep : Char) : List Char → List (List Char)
  | [] => [[]]
  | c :: rest =>
    let r := splitOnCharList sep rest
    if c = sep then [] :: r
    else
      match r with
      | [] => [[c]]
      | h :: t => (c :: h) :: t

/-- JavaScript `s.split(sep)` for a one-character separator. -/
def jsSplit (s : String) (sep : Char) : List String :=
  (splitOnCharList sep s.toList).map (fun cs => String.mk cs)

/-- JavaScript `parts.join(sep)` for a one-character separator. -/
def jsJoin (sep : Char) : List String → String
  | [] => ""
  | [p] => p
  | p :: rest => p ++ String.mk [sep] ++ jsJoin sep rest

/-- Source: `sanitizeMongoURI`. Drops the query string, then if the
slash-separated parts number more than three keeps only the first three;
otherwise returns the original `uri` unchanged. -/
def sanitizeMongoURI (uri : String) : String :=
  let parsed := (jsSplit uri '?').headD ""
  let parts := jsSplit parsed '/'
  if 3 < parts.length then jsJoin '/' (parts.take 3)
  else uri

/-- Source: `validateMongoURI`, testing the regular expression
`^mongodb(\+srv)?:\/\/.+`. -/
def validateMongoURI (uri : String) : Except String Unit :=
  if ("mongodb://".toList.isPrefixOf uri.toList ∧ "mongodb://".length < uri.length)
      ∨ ("mongodb+srv://".toList.isPrefixOf uri.toList ∧ "mongodb+srv://".length < uri.length) then
    Except.ok ()
  else Except.error ERROR_MESSAGES.INVALID_MONGO_URI

/-! ## Connection manager (src/core/ConnectionManager.ts) -/

/-- Abstract error raised by the engine. -/
inductive PolyError where
  | maxConnectionsExceeded
  | connectionFailed (dbName : String)
  | notInitialized (msg : String)
deriving DecidableEq

/-- A metadata-store side effect issued by the connection manager. -/
inductive MetadataEffect where
  | setWatchStatus (dbName : String) (hasActiveWatch : Bool)
deriving DecidableEq

/-- Mutable state of `ConnectionManager`: the live map (association list in
insertion order, unique keys) and the monotonic counters. -/
structure CMState where
  connections : List (String × ConnectionInfo)
  cacheHits : ℕ
  cacheMisses : ℕ
  evictions : ℕ
deriving DecidableEq

namespace ConnectionManager

/-- Source: `ConnectionManager.getActiveConnectionCount`. -/
def getActiveConnectionCount (s : CMState) : ℕ :=
  (s.connections.filter (fun p => decide (p.2.readyState = CONNECTION_STATE.CONNECTED))).length

/-- Source: `ConnectionManager.getWatchConnectionCount`. -/
def getWatchConnectionCount (s : CMState) : ℕ :=
  (s.connections.filter (fun p => decide (0 < p.2.watchStreams))).length

/-- Source: `ConnectionManager.closeConnection`.  The whole teardown sits in a
single `try { ... } catch { log }`; `connections.delete(dbName)` is the
penultimate statement of the `try` block.  `streamCloseFails` injects a
failure of `stream.close()` (only possible when the entry has watch streams),
`connCloseFails` injects a failure of `connection.close()` (by which point the
stream set and idle timer have already been cleared). -/
def closeConnection (s : CMState) (dbName : String)
    (streamCloseFails connCloseFails : Bool) : CMState :=
  match s.connections.find? (fun p => decide (p.1 = dbName)) with
  | none => s
  | some e =>
    if streamCloseFails = true ∧ 0 < e.2.watchStreams then
      s
    else if connCloseFails = true then
      { s with connections := s.connections.map (fun p =>
          if p.1 = dbName then (p.1, { p.2 with watchStreams := 0, idleTimeoutArmed := false }) else p) }
    else
      { s with connections := s.connections.filter (fun p => decide (p.1 ≠ dbName)),
               evictions := s.evictions + 1 }

/-- The no-failure oracle for teardown I/O: every `stream.close()` and
`connection.close()` succeeds. -/
def noCloseFailures : String → Bool × Bool := fun _ => (false, false)

/-- Source: `ConnectionManager.enforceMaxConnections`.  `failures` maps each
victim name to its `(stream.close a throws, connection.close throws)` outcome. -/
def enforceMaxConnections (config : ResolvedPolyMongoConfig) (now : ℚ)
    (failures : String → Bool × Bool) (s : CMState) : Except PolyError CMState :=
  match config.maxConnections with
  | none => Except.ok s
  | some mx =>
    let activeCount := getActiveConnectionCount s
    let watchCount := getWatchConnectionCount s
    if mx ≤ activeCount then
      let evictCount : ℤ := max 1 ((activeCount : ℤ) - (mx : ℤ) + 1 - (watchCount : ℤ))
      let toEvict := EvictionStrategyFactory.selectForEviction config.evictionType
        config.idleTimeout now s.connections evictCount.toNat
      if toEvict = [] then Except.error PolyError.maxConnectionsExceeded
      else Except.ok (toEvict.foldl
        (fun acc n => closeConnection acc n (failures n).1 (failures n).2) s)
    else Except.ok s

/-- Source: `ConnectionManager.registerWatchStream`.  When `dbName` is not in
the live map the method logs a warning and returns; otherwise it adds the
stream, persists the watch status, and clears any pending idle timer.  The
second component lists the metadata-store writes issued. -/
def registerWatchStream (s : CMState) (dbName : String) : CMState × List MetadataEffect :=
  match s.connections.find? (fun p => decide (p.1 = dbName)) with
  | none => (s, [])
  | some _ =>
    ({ s with connections := s.connections.map (fun p =>
        if p.1 = dbName then
          (p.1, { p.2 with watchStreams := p.2.watchStreams + 1, idleTimeoutArmed := false })
        else p) },
     [MetadataEffect.setWatchStatus dbName true])

/-- Source: `ConnectionManager.createConnection`, the URI it hands to
`mongoose.createConnection`: the raw `config.mongoURI` with `/<dbName>`
appended. -/
def connectionURI (config : ResolvedPolyMongoConfig) (dbName : String) : String :=
  config.mongoURI ++ "/" ++ dbName

end ConnectionManager

/-! ## Metadata manager (src/core/MetadataManager.ts) -/

namespace MetadataManager

/-- Source: `MetadataManager.incrementUseCount`.  The guard
`if (!this.metadataModel) throw ...` sits **outside** the `try` block; the
`catch` block around the `updateOne` upsert only logs.  `metadataModelReady`
models `this.metadataModel !== null`; `updateFails` injects a persistence
failure of the upsert. -/
def incrementUseCount (metadataModelReady : Bool) (updateFails : Bool) : Except String Unit :=
  if metadataModelReady = false then Except.error "Metadata manager not initialized"
  else if updateFails then Except.ok ()
  else Except.ok ()

end MetadataManager

/-! ## Orchestrator (src/core/PolyMongo.ts) -/

/-- Outcome of one run of the private `initialize()` routine. -/
inductive InitOutcome where
  | success
  | failure (msg : String)
deriving DecidableEq

deriving instance DecidableEq for Except

/-- Initialization-relevant state of a `PolyMongo` instance: the
`initialized` flag and the stored `initPromise` (`none` models `null`; a
stored settled promise is represented by its outcome). -/
structure PMInitState where
  initialized : Bool
  initPromise : Option (Except String Unit)
deriving DecidableEq

namespace PolyMongo

/-- Source: `PolyMongo.ensureInitialized`.  Returns the new state, the
result observed by the caller, and whether a fresh `initialize()` run was
started.  When a stored promise exists the caller just awaits it (no new
attempt).  On a fresh run, success sets `initialized` and then clears
`initPromise`; a rejection propagates out of `await this.initPromise`, so the
statement `this.initPromise = null` is never reached and the rejected promise
stays stored. -/
def ensureInitialized (s : PMInitState) (outcome : InitOutcome) :
    PMInitState × Except String Unit × Bool :=
  if s.initialized = true then (s, Except.ok (), false)
  else
    match s.initPromise with
    | some r => (s, r, false)
    | none =>
      match outcome with
      | .success => ({ initialized := true, initPromise := none }, Except.ok (), true)
      | .failure m => ({ initialized := false, initPromise := some (Except.error m) },
                       Except.error m, true)

/-- Source: `PolyMongo.initialize` together with `MetadataManager.initialize`:
the metadata connection is opened against the sanitized URI with
`/<metadataDB>` appended. -/
def metadataConnectionURI (config : ResolvedPolyMongoConfig) : String :=
  sanitizeMongoURI config.mongoURI ++ "/" ++ config.metadataDB

end PolyMongo

/-! ## Test fixtures -/

/-- Builder for concrete metadata records used in concrete evaluations. -/
def mkMeta (dbName : String) (priority useCount createdAt lastUsed : ℚ) : ConnectionMetadata :=
  { dbName := dbName, lastUsed := lastUsed, useCount := useCount, idleTime := 0,
    priority := priority, hasActiveWatch := false, createdAt := createdAt }

/-- Builder for concrete live-connection records used in concrete evaluations. -/
def mkInfo (dbName : String) (readyState watchStreams : ℕ) (priority useCount createdAt lastActivity : ℚ) : ConnectionInfo :=
  { readyState := readyState, watchStreams := watchStreams,
    metadata := mkMeta dbName priority useCount createdAt lastActivity,
    lastActivity := lastActivity, idleTimeoutArmed := false }

/-! ## Claim C5: the scoring formula -/

/-- Modelled from the spec (C5): the claimed closed-form score
`useScore − idlePenalty + priorityWeight` with
`avgInterval = lifetimeMs / useCount` when `useCount > 0` else `lifetimeMs`,
`useScore = useCount / max(avgInterval, 1)`,
`idlePenalty = (now − lastActivity) × 0.001`, and
`priorityWeight = half the maximum representable integer` at priority −1,
otherwise `1000 / (priority + 1)`. -/
def scoreFormulaSpec (now : ℚ) (c : ConnectionInfo) : ℚ :=
  let lifetimeMs := now - c.metadata.createdAt
  let avgInterval := if 0 < c.metadata.useCount then lifetimeMs / c.metadata.useCount else lifetimeMs
  let useScore := c.metadata.useCount / max avgInterval 1
  let idlePenalty := (now - c.lastActivity) * (1/1000)
  let priorityWeight := if c.metadata.priority = -1 then 9007199254740991 / 2
    else 1000 / (c.metadata.priority + 1)
  useScore - idlePenalty + priorityWeight

/-- Claim C5 (confirmed): for every connection info and every current time,
`ScoringEngine.calculateScore` returns exactly the claimed formula
`useScore − idlePenalty + priorityWeight`. -/
theorem calculateScore_eq_claimed_formula (now : ℚ) (c : ConnectionInfo) :
    ScoringEngine.calculateScore now c = scoreFormulaSpec now c := rfl

/-! ## Claim C4: incrementUseCount error propagation -/

/-- Counterexample to claim C4 as stated: with the metadata model not yet
initialized (`this.metadataModel === null`), `incrementUseCount` throws — the
guard sits outside the `try` block — so it does propagate a failure. -/
theorem incrementUseCount_uninitialized_throws :
    MetadataManager.incrementUseCount false false
      = Except.error "Metadata manager not initialized" := rfl

/-- Claim C4 (amended): provided the metadata manager is initialized,
`incrementUseCount` never propagates a failure: the upsert's persistence
errors are caught and logged, so activity recording on a cache hit cannot
fail the user's query. -/
theorem incrementUseCount_initialized_never_fails (updateFails : Bool) :
    MetadataManager.incrementUseCount true updateFails = Except.ok () := by
  cases updateFails <;> rfl

/-! ## Claim C7: retry after failed initialization -/

/-- Claim C7 (code bug): after `ensureInitialized` fails, the stored
`initPromise` still holds the rejected promise (it is not cleared, because
`this.initPromise = null` is skipped when the `await` throws), and the next
`ensureInitialized` call — even though a fresh `initialize()` run would
succeed — returns the stale rejection without starting a new attempt
(third component `false` = no fresh run). -/
theorem ensureInitialized_failure_leaves_stale_promise :
    (PolyMongo.ensureInitialized ⟨false, none⟩ (InitOutcome.failure "boom")).1.initPromise
        = some (Except.error "boom")
    ∧ PolyMongo.ensureInitialized
        (PolyMongo.ensureInitialized ⟨false, none⟩ (InitOutcome.failure "boom")).1
        InitOutcome.success
      = ((PolyMongo.ensureInitialized ⟨false, none⟩ (InitOutcome.failure "boom")).1,
         Except.error "boom", false) :=
  ⟨rfl, rfl⟩

/-! ## Claim C9: validatePriority -/

/-- Counterexample to claim C9 as stated: the non-integer `1/2` is ≥ −1 and
not NaN, the claim says `setPriority` must fail with `InvalidPriority` for a
non-integer, yet `validatePriority` accepts it (the source has no
integrality check). -/
theorem validatePriority_accepts_noninteger :
    validatePriority (JSNumber.num (1/2)) = Except.ok ()
    ∧ (1/2 : ℚ).den ≠ 1 ∧ ¬ ((1/2 : ℚ) < -1) := by
  refine ⟨?_, by norm_num, by norm_num⟩
  norm_num [validatePriority]

/-- Claim C9 (amended): `validatePriority` fails with `InvalidPriority`
exactly when the value is NaN or less than −1; every value ≥ −1 — integer or
not — is accepted. -/
theorem validatePriority_fails_iff (p : JSNumber) :
    validatePriority p = Except.error ERROR_MESSAGES.INVALID_PRIORITY
      ↔ (p = JSNumber.nan ∨ ∃ q, p = JSNumber.num q ∧ q < -1) := by
  cases p with
  | nan => simp [validatePriority]
  | num q =>
    by_cases h : q < -1 <;> simp [validatePriority, h]

/-! ## Claim C10: registerWatchStream on an unknown database -/

/-- Claim C10 (confirmed): when `dbName` has no entry in the live map,
`registerWatchStream` returns without throwing, leaves the state (live map,
timers, counters) unchanged, and issues no metadata write. -/
theorem registerWatchStream_unknown_noop (s : CMState) (dbName : String)
    (h : s.connections.find? (fun p => decide (p.1 = dbName)) = none) :
    ConnectionManager.registerWatchStream s dbName = (s, []) := by
  unfold ConnectionManager.registerWatchStream
  rw [h]

/-- Witness for claim C10 at a concrete state: a single-entry map without "b". -/
theorem registerWatchStream_unknown_noop_witness :
    ConnectionManager.registerWatchStream
        ⟨[("a", mkInfo "a" 1 0 500 3 0 5)], 2, 1, 0⟩ "b"
      = (⟨[("a", mkInfo "a" 1 0 500 3 0 5)], 2, 1, 0⟩, []) :=
  registerWatchStream_unknown_noop _ _ (by decide)

/-! ## Claim C6: URI sanitization -/

/-- Configuration whose `mongoURI` carries a path component. -/
def cfgWithPathURI : ResolvedPolyMongoConfig :=
  { mongoURI := "mongodb://localhost:27017/mydb", metadataDB := "polymongo-metadata",
    defaultDB := "Default-DB", idleTimeout := 60000, maxConnections := none,
    cacheConnections := true, disconnectOnIdle := true, evictionType := EvictionType.lru }

/-- Claim C6 (code bug): the accepted URI `mongodb://localhost:27017/mydb`
is sanitized correctly in isolation, and the metadata connection does use the
sanitized base, but tenant opens use the raw `config.mongoURI`, so the path
component survives into every tenant connection URI; moreover a query string
with no path component is not stripped at all by `sanitizeMongoURI`. -/
theorem tenantConnectionURI_not_sanitized :
    validateMongoURI "mongodb://localhost:27017/mydb" = Except.ok ()
    ∧ sanitizeMongoURI "mongodb://localhost:27017/mydb" = "mongodb://localhost:27017"
    ∧ PolyMongo.metadataConnectionURI cfgWithPathURI = "mongodb://localhost:27017/polymongo-metadata"
    ∧ ConnectionManager.connectionURI cfgWithPathURI "tenant"
        = "mongodb://localhost:27017/mydb/tenant"
    ∧ ConnectionManager.connectionURI cfgWithPathURI "tenant"
        ≠ sanitizeMongoURI cfgWithPathURI.mongoURI ++ "/" ++ "tenant"
    ∧ sanitizeMongoURI "mongodb://localhost:27017?retryWrites=true"
        = "mongodb://localhost:27017?retryWrites=true" := by
  refine ⟨?_, ?_, ?_, ?_, ?_, ?_⟩ <;> decide

/-! ## Claim C3: closeConnection under teardown errors -/

/-- A live map holding a single resident connection "a" with no watch streams. -/
def residentAState : CMState :=
  ⟨[("a", mkInfo "a" 1 0 500 3 0 5)], 0, 0, 0⟩

/-- Claim C3 (code bug): `connections.delete(dbName)` sits inside the `try`
block after `connection.close()`, so when the driver close throws the entry
stays in the live map (first conjunct), whereas a clean teardown does remove
it (second conjunct). -/
theorem closeConnection_error_keeps_entry :
    ((ConnectionManager.closeConnection residentAState "a" false true).connections.find?
        (fun p => decide (p.1 = "a"))).isSome = true
    ∧ ((ConnectionManager.closeConnection residentAState "a" false false).connections.find?
        (fun p => decide (p.1 = "a"))).isSome = false := by
  refine ⟨?_, ?_⟩ <;> decide

/-! ## Claim C2: priority −1 protection in eviction selection -/

/-- A connection surviving the strict candidate filter has priority ≠ −1. -/
theorem keepsCandidate_true_priority {c : ConnectionInfo}
    (h : ScoringEngine.keepsCandidate true c = true) :
    c.metadata.priority ≠ PRIORITY.NEVER_CLOSE := by
  intro hp
  by_cases hw : 0 < c.watchStreams
  · simp [ScoringEngine.keepsCandidate, hw] at h
  · simp [ScoringEngine.keepsCandidate, hw, hp] at h

/-- With `excludeWatched = false` the candidate filter keeps everything. -/
theorem keepsCandidate_false (c : ConnectionInfo) :
    ScoringEngine.keepsCandidate false c = true := by
  simp [ScoringEngine.keepsCandidate]

/-- A timeout-eligible connection has priority ≠ −1. -/
theorem timeout_shouldEvict_priority {idleTimeout now : ℚ} {c : ConnectionInfo}
    (h : TimeoutEvictionStrategy.shouldEvict idleTimeout c now = true) :
    c.metadata.priority ≠ PRIORITY.NEVER_CLOSE := by
  intro hp
  simp [TimeoutEvictionStrategy.shouldEvict, hp] at h

/-- Every sorted eviction candidate stems from a live-map entry that passed
the candidate filter. -/
theorem findEvictionCandidates_mem {now : ℚ} {conns : List (String × ConnectionInfo)} {ex : Bool}
    {c : ScoringEngine.Candidate} (h : c ∈ ScoringEngine.findEvictionCandidates now conns ex) :
    ∃ e ∈ conns, ScoringEngine.keepsCandidate ex e.2 = true ∧ c.dbName = e.1 ∧ c.info = e.2 := by
  unfold ScoringEngine.findEvictionCandidates at h
  rw [List.mem_insertionSort] at h
  obtain ⟨e, he, rfl⟩ := List.mem_map.mp h
  exact ⟨e, (List.mem_filter.mp he).1, (List.mem_filter.mp he).2, rfl, rfl⟩

/-- With unique keys, two live-map entries with the same name are equal. -/
theorem entry_eq_of_key_eq {conns : List (String × ConnectionInfo)}
    (hnodup : (conns.map (fun p => p.1)).Nodup)
    {e e' : String × ConnectionInfo} (he : e ∈ conns) (he' : e' ∈ conns) (h : e.1 = e'.1) :
    e = e' :=
  List.inj_on_of_nodup_map hnodup he he' h

/-- Claim C2 (amended): a priority −1 connection is never chosen by the
manual or timeout selector, nor by the LRU selector as long as the strict
pass (excluding watched and priority −1 connections) already yields at least
`count` candidates; only LRU's fallback pass can return one. -/
theorem selectForEviction_avoids_priority_neg_one
    (t : EvictionType) (idleTimeout now : ℚ) (conns : List (String × ConnectionInfo)) (count : ℕ)
    (hnodup : (conns.map (fun p => p.1)).Nodup)
    (hsafe : t = EvictionType.manual ∨ t = EvictionType.timeout
      ∨ (t = EvictionType.lru
         ∧ count ≤ (ScoringEngine.findEvictionCandidates now conns true).length))
    (e : String × ConnectionInfo) (he : e ∈ conns)
    (hsel : e.1 ∈ EvictionStrategyFactory.selectForEviction t idleTimeout now conns count) :
    e.2.metadata.priority ≠ PRIORITY.NEVER_CLOSE := by
  rcases hsafe with ht | ht | ⟨ht, hcount⟩ <;> subst ht
  · simp [EvictionStrategyFactory.selectForEviction,
      ManualEvictionStrategy.selectForEviction] at hsel
  · simp only [EvictionStrategyFactory.selectForEviction] at hsel
    unfold TimeoutEvictionStrategy.selectForEviction at hsel
    obtain ⟨pair, hpair, hname⟩ := List.mem_map.mp hsel
    have hp2 := List.mem_of_mem_take hpair
    rw [List.mem_insertionSort] at hp2
    obtain ⟨e', he', hfe⟩ := List.mem_map.mp hp2
    have hfil := List.mem_filter.mp he'
    have hkey : e.1 = e'.1 := by
      rw [← hname, ← hfe]
    have hee : e = e' := entry_eq_of_key_eq hnodup he hfil.1 hkey
    rw [hee]
    exact timeout_shouldEvict_priority hfil.2
  · simp only [EvictionStrategyFactory.selectForEviction,
      LRUEvictionStrategy.selectForEviction] at hsel
    by_cases h0 : count = 0
    · simp [ScoringEngine.selectForEviction, h0] at hsel
    · simp only [ScoringEngine.selectForEviction] at hsel
      rw [if_neg h0, if_neg (not_lt.mpr hcount)] at hsel
      obtain ⟨cand, hcand, hname⟩ := List.mem_map.mp hsel
      obtain ⟨e', he', hkeep, hdb, hinfo⟩ :=
        findEvictionCandidates_mem (List.mem_of_mem_take hcand)
      have hkey : e.1 = e'.1 := by rw [← hname, hdb]
      have hee : e = e' := entry_eq_of_key_eq hnodup he he' hkey
      rw [hee]
      exact keepsCandidate_true_priority hkeep

/-- Witness for claim C2 at a concrete input: one unwatched priority-500
connection under the LRU strategy with a full strict pass. -/
theorem selectForEviction_avoids_priority_neg_one_witness :
    ((("a", mkInfo "a" 1 0 500 0 0 0) : String × ConnectionInfo)).2.metadata.priority
      ≠ PRIORITY.NEVER_CLOSE :=
  selectForEviction_avoids_priority_neg_one EvictionType.lru 60000 1000
    [("a", mkInfo "a" 1 0 500 0 0 0)] 1 (by decide)
    (Or.inr (Or.inr ⟨rfl, by decide⟩))
    ("a", mkInfo "a" 1 0 500 0 0 0) (by decide) (by decide)

/-- Live map holding only a protected (priority −1) connection. -/
def protectedOnlyConnections : List (String × ConnectionInfo) :=
  [("p", mkInfo "p" 1 0 (-1) 0 0 0)]

/-- Counterexample to claim C2 as stated: under the LRU strategy produced by
the factory, when the strict pass finds no candidate the fallback pass
includes — and here returns — the priority −1 connection. -/
theorem lru_fallback_selects_priority_neg_one :
    EvictionStrategyFactory.selectForEviction EvictionType.lru 60000 1000
        protectedOnlyConnections 1 = ["p"]
    ∧ (mkInfo "p" 1 0 (-1) 0 0 0).metadata.priority = PRIORITY.NEVER_CLOSE := by
  exact ⟨by decide, rfl⟩

/-! ## Claim C8: tie-breaking in eviction selection -/

/-- Sorting a two-element list keeps the order when the first may precede the
second. -/
theorem insertionSort_pair_of_rel {α : Type} (r : α → α → Prop) [DecidableRel r]
    (a b : α) (hab : r a b) : List.insertionSort r [a, b] = [a, b] := by
  simp [List.insertionSort, List.orderedInsert, hab]

/-- Sorting a two-element list swaps the order when the first may not precede
the second. -/
theorem insertionSort_pair_of_not_rel {α : Type} (r : α → α → Prop) [DecidableRel r]
    (a b : α) (hab : ¬ r a b) : List.insertionSort r [a, b] = [b, a] := by
  simp [List.insertionSort, List.orderedInsert, hab]

/-- Modelled from the claim (C8): candidate collection sorted with score ties
broken lexicographically by `dbName`. -/
def findEvictionCandidatesLexTie (now : ℚ) (connections : List (String × ConnectionInfo))
    (excludeWatched : Bool) : List ScoringEngine.Candidate :=
  let candidates := (connections.filter (fun e => ScoringEngine.keepsCandidate excludeWatched e.2)).map
    (fun e => { dbName := e.1, score := ScoringEngine.calculateScore now e.2, info := e.2 : ScoringEngine.Candidate })
  List.insertionSort
    (fun a b => a.score < b.score ∨ (a.score = b.score ∧ a.dbName ≤ b.dbName)) candidates

/-- Modelled from the claim (C8): eviction selection whose ties are ordered
lexicographically by `dbName`. -/
def selectForEvictionLexTie (now : ℚ) (connections : List (String × ConnectionInfo))
    (count : ℕ) : List String :=
  if count = 0 then []
  else
    let strict := findEvictionCandidatesLexTie now connections true
    let candidates := if strict.length < count then findEvictionCandidatesLexTie now connections false else strict
    (candidates.take count).map (fun c => c.dbName)

/-- A live map whose two entries have equal scores, inserted in
anti-lexicographic order. -/
def tieConnections : List (String × ConnectionInfo) :=
  [("b", mkInfo "b" 1 0 500 0 0 0), ("a", mkInfo "a" 1 0 500 0 0 0)]

/-- Counterexample to claim C8 as stated: the two candidates have equal
scores, yet the engine returns the first-inserted "b" where the claimed
lexicographic ordering would return "a" — the sort has no dbName tie-break. -/
theorem selectForEviction_tie_not_lexicographic :
    ScoringEngine.calculateScore 1000 (mkInfo "b" 1 0 500 0 0 0)
        = ScoringEngine.calculateScore 1000 (mkInfo "a" 1 0 500 0 0 0)
    ∧ ScoringEngine.selectForEviction 1000 tieConnections 1 = ["b"]
    ∧ selectForEvictionLexTie 1000 tieConnections 1 = ["a"] := by
  have hscore : ScoringEngine.calculateScore 1000 (mkInfo "b" 1 0 500 0 0 0)
      = ScoringEngine.calculateScore 1000 (mkInfo "a" 1 0 500 0 0 0) := rfl
  refine ⟨hscore, ?_, ?_⟩
  · have h1 : ScoringEngine.findEvictionCandidates 1000 tieConnections true
        = List.insertionSort (fun a b : ScoringEngine.Candidate => a.score ≤ b.score)
            [{ dbName := "b", score := ScoringEngine.calculateScore 1000 (mkInfo "b" 1 0 500 0 0 0),
               info := mkInfo "b" 1 0 500 0 0 0 },
             { dbName := "a", score := ScoringEngine.calculateScore 1000 (mkInfo "a" 1 0 500 0 0 0),
               info := mkInfo "a" 1 0 500 0 0 0 }] := rfl
    have h2 := insertionSort_pair_of_rel
      (fun a b : ScoringEngine.Candidate => a.score ≤ b.score)
      { dbName := "b", score := ScoringEngine.calculateScore 1000 (mkInfo "b" 1 0 500 0 0 0),
        info := mkInfo "b" 1 0 500 0 0 0 }
      { dbName := "a", score := ScoringEngine.calculateScore 1000 (mkInfo "a" 1 0 500 0 0 0),
        info := mkInfo "a" 1 0 500 0 0 0 }
      (le_of_eq hscore)
    simp only [ScoringEngine.selectForEviction, h1, h2]
    norm_num
  · have h1 : findEvictionCandidatesLexTie 1000 tieConnections true
        = List.insertionSort
            (fun a b : ScoringEngine.Candidate =>
              a.score < b.score ∨ (a.score = b.score ∧ a.dbName ≤ b.dbName))
            [{ dbName := "b", score := ScoringEngine.calculateScore 1000 (mkInfo "b" 1 0 500 0 0 0),
               info := mkInfo "b" 1 0 500 0 0 0 },
             { dbName := "a", score := ScoringEngine.calculateScore 1000 (mkInfo "a" 1 0 500 0 0 0),
               info := mkInfo "a" 1 0 500 0 0 0 }] := rfl
    have hnot : ¬ (ScoringEngine.calculateScore 1000 (mkInfo "b" 1 0 500 0 0 0)
          < ScoringEngine.calculateScore 1000 (mkInfo "a" 1 0 500 0 0 0)
        ∨ (ScoringEngine.calculateScore 1000 (mkInfo "b" 1 0 500 0 0 0)
            = ScoringEngine.calculateScore 1000 (mkInfo "a" 1 0 500 0 0 0)
           ∧ ("b" : String) ≤ "a")) := by
      rintro (hlt | ⟨-, hle⟩)
      · rw [hscore] at hlt
        exact lt_irrefl _ hlt
      · have hba : ¬ ("b" : String) ≤ "a" := by
          rw [String.le_iff_toList_le]
          decide
        exact absurd hle hba
    have h2 := insertionSort_pair_of_not_rel
      (fun a b : ScoringEngine.Candidate =>
        a.score < b.score ∨ (a.score = b.score ∧ a.dbName ≤ b.dbName))
      { dbName := "b", score := ScoringEngine.calculateScore 1000 (mkInfo "b" 1 0 500 0 0 0),
        info := mkInfo "b" 1 0 500 0 0 0 }
      { dbName := "a", score := ScoringEngine.calculateScore 1000 (mkInfo "a" 1 0 500 0 0 0),
        info := mkInfo "a" 1 0 500 0 0 0 }
      hnot
    simp only [selectForEvictionLexTie, h1, h2]
    norm_num

/-- Claim C8 (amended): the comparator sort is stable, so two eligible
candidates with equal scores are returned in the live map's insertion order —
not in lexicographic dbName order — and the victim list is a deterministic
function of the insertion-ordered map and the count. -/
theorem selectForEviction_tie_preserves_insertion_order
    (now : ℚ) (n1 n2 : String) (i1 i2 : ConnectionInfo)
    (h1w : i1.watchStreams = 0) (h2w : i2.watchStreams = 0)
    (h1p : i1.metadata.priority ≠ PRIORITY.NEVER_CLOSE)
    (h2p : i2.metadata.priority ≠ PRIORITY.NEVER_CLOSE)
    (hscore : ScoringEngine.calculateScore now i1 = ScoringEngine.calculateScore now i2) :
    ScoringEngine.selectForEviction now [(n1, i1), (n2, i2)] 2 = [n1, n2] := by
  have hk1 : ScoringEngine.keepsCandidate true i1 = true := by
    simp [ScoringEngine.keepsCandidate, h1w, h1p]
  have hk2 : ScoringEngine.keepsCandidate true i2 = true := by
    simp [ScoringEngine.keepsCandidate, h2w, h2p]
  have hcands : ScoringEngine.findEvictionCandidates now [(n1, i1), (n2, i2)] true
      = List.insertionSort (fun a b : ScoringEngine.Candidate => a.score ≤ b.score)
          [{ dbName := n1, score := ScoringEngine.calculateScore now i1, info := i1 },
           { dbName := n2, score := ScoringEngine.calculateScore now i2, info := i2 }] := by
    simp [ScoringEngine.findEvictionCandidates, List.filter_cons, hk1, hk2]
  have hsort := insertionSort_pair_of_rel
    (fun a b : ScoringEngine.Candidate => a.score ≤ b.score)
    { dbName := n1, score := ScoringEngine.calculateScore now i1, info := i1 }
    { dbName := n2, score := ScoringEngine.calculateScore now i2, info := i2 }
    (le_of_eq hscore)
  simp only [ScoringEngine.selectForEviction, hcands, hsort]
  norm_num

/-- Witness for claim C8 at a concrete input: the equal-score pair of
`tieConnections`, returned in insertion order. -/
theorem selectForEviction_tie_preserves_insertion_order_witness :
    ScoringEngine.selectForEviction 1000 tieConnections 2 = ["b", "a"] :=
  selectForEviction_tie_preserves_insertion_order 1000 "b" "a"
    (mkInfo "b" 1 0 500 0 0 0) (mkInfo "a" 1 0 500 0 0 0)
    rfl rfl (by decide) (by decide) rfl

/-! ## Claim C1: the enforceMax admission invariant -/

/-- The claim's measure: live-map entries in state CONNECTED that have no
watch streams. -/
def countConnectedUnwatched (conns : List (String × ConnectionInfo)) : ℕ :=
  (conns.filter (fun p =>
    decide (p.2.readyState = CONNECTION_STATE.CONNECTED) && decide (p.2.watchStreams = 0))).length

/-- The measured count is bounded by the manager's active-connection count. -/
theorem countConnectedUnwatched_le_active (s : CMState) :
    countConnectedUnwatched s.connections ≤ ConnectionManager.getActiveConnectionCount s := by
  unfold countConnectedUnwatched ConnectionManager.getActiveConnectionCount
  have h : (fun p : String × ConnectionInfo =>
        decide (p.2.readyState = CONNECTION_STATE.CONNECTED) && decide (p.2.watchStreams = 0))
      = (fun p : String × ConnectionInfo =>
        decide (p.2.watchStreams = 0) && decide (p.2.readyState = CONNECTION_STATE.CONNECTED)) := by
    funext p
    exact Bool.and_comm _ _
  rw [h, ← List.filter_filter]
  exact List.length_filter_le _ _

/-- A clean `closeConnection` (no teardown failure) removes exactly the named
entry from the live map. -/
theorem closeConnection_connections (s : CMState) (n : String) :
    (ConnectionManager.closeConnection s n false false).connections
      = s.connections.filter (fun p => decide (p.1 ≠ n)) := by
  unfold ConnectionManager.closeConnection
  cases hf : s.connections.find? (fun p => decide (p.1 = n)) with
  | none =>
    have hall := List.find?_eq_none.mp hf
    symm
    rw [List.filter_eq_self]
    intro a ha
    simpa using hall a ha
  | some e => simp

/-- Folding clean closes over a list of names filters those names out of the
live map. -/
theorem foldl_close_connections (names : List String) (s : CMState) :
    ((names.foldl (fun acc n => ConnectionManager.closeConnection acc n
        (ConnectionManager.noCloseFailures n).1 (ConnectionManager.noCloseFailures n).2) s).connections)
      = s.connections.filter (fun p => decide (p.1 ∉ names)) := by
  induction names generalizing s with
  | nil => simp
  | cons n ns ih =>
    rw [List.foldl_cons]
    have hcc : ConnectionManager.closeConnection s n (ConnectionManager.noCloseFailures n).1
        (ConnectionManager.noCloseFailures n).2 = ConnectionManager.closeConnection s n false false := rfl
    rw [hcc, ih, closeConnection_connections, List.filter_filter]
    congr 1
    funext p
    by_cases h1 : p.1 = n <;> by_cases h2 : p.1 ∈ ns <;> simp [h1, h2]

/-- In a list with unique keys, the entries whose key lies in a duplicate-free
subset `V` of the keys number exactly `V.length`. -/
theorem length_filter_key_mem (K : List (String × ConnectionInfo)) (V : List String)
    (hK : (K.map (fun p => p.1)).Nodup) (hV : V.Nodup)
    (hsub : ∀ v ∈ V, v ∈ K.map (fun p => p.1)) :
    (K.filter (fun p => decide (p.1 ∈ V))).length = V.length := by
  have h1 : (K.filter (fun p => decide (p.1 ∈ V))).length
      = ((K.map (fun p => p.1)).filter (fun k => decide (k ∈ V))).length := by
    rw [List.filter_map, List.length_map]
    rfl
  rw [h1]
  have hfil : ((K.map (fun p => p.1)).filter (fun k => decide (k ∈ V))).Nodup :=
    (List.filter_sublist (K.map (fun p => p.1))).nodup hK
  have hset : ((K.map (fun p => p.1)).filter (fun k => decide (k ∈ V))).toFinset = V.toFinset := by
    ext a
    simp only [List.mem_toFinset, List.mem_filter, decide_eq_true_eq]
    exact ⟨fun h => h.2, fun h => ⟨hsub a h, h⟩⟩
  have hc1 := List.toFinset_card_of_nodup hfil
  have hc2 := List.toFinset_card_of_nodup hV
  rw [hset, hc2] at hc1
  exact hc1.symm

/-- The fallback pass keeps every connection, so it yields one candidate per
live-map entry. -/
theorem findEvictionCandidates_false_length (now : ℚ) (conns : List (String × ConnectionInfo)) :
    (ScoringEngine.findEvictionCandidates now conns false).length = conns.length := by
  have hf : conns.filter (fun e => ScoringEngine.keepsCandidate false e.2) = conns :=
    List.filter_eq_self.mpr (fun a _ => keepsCandidate_false a.2)
  simp [ScoringEngine.findEvictionCandidates, hf, List.length_insertionSort]

/-- Either candidate pass yields at most one candidate per live-map entry. -/
theorem findEvictionCandidates_length_le (now : ℚ) (conns : List (String × ConnectionInfo))
    (ex : Bool) :
    (ScoringEngine.findEvictionCandidates now conns ex).length ≤ conns.length := by
  simp only [ScoringEngine.findEvictionCandidates, List.length_insertionSort, List.length_map]
  exact List.length_filter_le _ _

/-- For a positive count, the LRU selection returns exactly
`min count |live map|` victims: the fallback pass guarantees the quota is met
whenever enough connections exist at all. -/
theorem selectForEviction_length (now : ℚ) (conns : List (String × ConnectionInfo))
    (count : ℕ) (h0 : count ≠ 0) :
    (ScoringEngine.selectForEviction now conns count).length = min count conns.length := by
  simp only [ScoringEngine.selectForEviction]
  rw [if_neg h0]
  by_cases h : (ScoringEngine.findEvictionCandidates now conns true).length < count
  · rw [if_pos h, List.length_map, List.length_take, findEvictionCandidates_false_length]
  · rw [if_neg h, List.length_map, List.length_take]
    have h1 : count ≤ (ScoringEngine.findEvictionCandidates now conns true).length := not_lt.mp h
    have h2 := findEvictionCandidates_length_le now conns true
    omega

/-- The names of either candidate pass are duplicate-free when the live map's
keys are. -/
theorem findEvictionCandidates_names_nodup (now : ℚ) {conns : List (String × ConnectionInfo)}
    (ex : Bool) (hnodup : (conns.map (fun p => p.1)).Nodup) :
    ((ScoringEngine.findEvictionCandidates now conns ex).map (fun c => c.dbName)).Nodup := by
  have hfilnames : ((conns.filter (fun e => ScoringEngine.keepsCandidate ex e.2)).map
      (fun p => p.1)).Nodup :=
    ((List.filter_sublist conns).map (fun p => p.1)).nodup hnodup
  have hCL : ((conns.filter (fun e => ScoringEngine.keepsCandidate ex e.2)).map
        (fun e => { dbName := e.1, score := ScoringEngine.calculateScore now e.2,
                    info := e.2 : ScoringEngine.Candidate })).map (fun c => c.dbName)
      = (conns.filter (fun e => ScoringEngine.keepsCandidate ex e.2)).map (fun p => p.1) := by
    rw [List.map_map]
    rfl
  have hperm := (List.perm_insertionSort
    (fun a b : ScoringEngine.Candidate => a.score ≤ b.score)
    ((conns.filter (fun e => ScoringEngine.keepsCandidate ex e.2)).map
      (fun e => { dbName := e.1, score := ScoringEngine.calculateScore now e.2,
                  info := e.2 : ScoringEngine.Candidate }))).map (fun c => c.dbName)
  have hbase : (((conns.filter (fun e => ScoringEngine.keepsCandidate ex e.2)).map
      (fun e => { dbName := e.1, score := ScoringEngine.calculateScore now e.2,
                  info := e.2 : ScoringEngine.Candidate })).map (fun c => c.dbName)).Nodup := by
    rw [hCL]
    exact hfilnames
  exact hperm.symm.nodup hbase

/-- The LRU victim list has no duplicate names when the live map's keys are
duplicate-free. -/
theorem selectForEviction_nodup (now : ℚ) {conns : List (String × ConnectionInfo)}
    (count : ℕ) (hnodup : (conns.map (fun p => p.1)).Nodup) :
    (ScoringEngine.selectForEviction now conns count).Nodup := by
  simp only [ScoringEngine.selectForEviction]
  by_cases h0 : count = 0
  · simp [h0]
  · rw [if_neg h0]
    by_cases h : (ScoringEngine.findEvictionCandidates now conns true).length < count
    · rw [if_pos h, List.map_take]
      exact (List.take_sublist _ _).nodup (findEvictionCandidates_names_nodup now false hnodup)
    · rw [if_neg h, List.map_take]
      exact (List.take_sublist _ _).nodup (findEvictionCandidates_names_nodup now true hnodup)

/-- Every name of either truncated candidate pass is a live-map key. -/
theorem findEvictionCandidates_take_subset {now : ℚ} {conns : List (String × ConnectionInfo)}
    {ex : Bool} {count : ℕ} {name : String}
    (h : name ∈ ((ScoringEngine.findEvictionCandidates now conns ex).take count).map
      (fun c => c.dbName)) : name ∈ conns.map (fun p => p.1) := by
  obtain ⟨c, hc, rfl⟩ := List.mem_map.mp h
  obtain ⟨e, he, _, hdb, _⟩ := findEvictionCandidates_mem (List.mem_of_mem_take hc)
  rw [hdb]
  exact List.mem_map_of_mem _ he

/-- Every LRU victim is a live-map key. -/
theorem selectForEviction_subset {now : ℚ} {conns : List (String × ConnectionInfo)}
    {count : ℕ} {name : String}
    (h : name ∈ ScoringEngine.selectForEviction now conns count) :
    name ∈ conns.map (fun p => p.1) := by
  simp only [ScoringEngine.selectForEviction] at h
  by_cases h0 : count = 0
  · simp [h0] at h
  · rw [if_neg h0] at h
    by_cases hl : (ScoringEngine.findEvictionCandidates now conns true).length < count
    · rw [if_pos hl] at h
      exact findEvictionCandidates_take_subset h
    · rw [if_neg hl] at h
      exact findEvictionCandidates_take_subset h

/-- Claim C1 (amended): after `enforceMaxConnections` returns without raising
`MaxConnectionsExceeded`, the number of CONNECTED entries without watch
streams is at most `maxConnections`, provided teardown succeeds and the
strategy is manual, or the strategy is LRU and every live entry is CONNECTED
with no watch streams.  (The timeout strategy, watched entries and
non-CONNECTED entries admit violations; see the counterexample.) -/
theorem enforceMax_bounds_connected_unwatched
    (config : ResolvedPolyMongoConfig) (now : ℚ) (s : CMState) (mx : ℕ) (s' : CMState)
    (hmax : config.maxConnections = some mx) (hmx : 1 ≤ mx)
    (hnodup : (s.connections.map (fun p => p.1)).Nodup)
    (hstrat : config.evictionType = EvictionType.manual
      ∨ (config.evictionType = EvictionType.lru
         ∧ ∀ e ∈ s.connections, e.2.readyState = CONNECTION_STATE.CONNECTED ∧ e.2.watchStreams = 0))
    (hok : ConnectionManager.enforceMaxConnections config now ConnectionManager.noCloseFailures s
      = Except.ok s') :
    countConnectedUnwatched s'.connections ≤ mx := by
  simp only [ConnectionManager.enforceMaxConnections, hmax] at hok
  by_cases hact : mx ≤ ConnectionManager.getActiveConnectionCount s
  · rw [if_pos hact] at hok
    rcases hstrat with hm | ⟨hl, hconn⟩
    · rw [hm] at hok
      simp [EvictionStrategyFactory.selectForEviction,
        ManualEvictionStrategy.selectForEviction] at hok
    · rw [hl] at hok
      simp only [EvictionStrategyFactory.selectForEviction,
        LRUEvictionStrategy.selectForEviction] at hok
      have hW : ConnectionManager.getWatchConnectionCount s = 0 := by
        unfold ConnectionManager.getWatchConnectionCount
        rw [List.length_eq_zero, List.filter_eq_nil_iff]
        intro p hp
        simp [(hconn p hp).2]
      have hA : ConnectionManager.getActiveConnectionCount s = s.connections.length := by
        unfold ConnectionManager.getActiveConnectionCount
        rw [List.filter_eq_self.mpr (fun a ha => decide_eq_true ((hconn a ha).1))]
      rw [hW] at hok
      have hlen : mx ≤ s.connections.length := by
        rw [← hA]
        exact hact
      have hkval : (max 1 ((ConnectionManager.getActiveConnectionCount s : ℤ)
            - (mx : ℤ) + 1 - ((0 : ℕ) : ℤ))).toNat = s.connections.length - mx + 1 := by
        rw [hA]
        omega
      rw [hkval] at hok
      by_cases hE : ScoringEngine.selectForEviction now s.connections
          (s.connections.length - mx + 1) = []
      · rw [if_pos hE] at hok
        simp at hok
      · rw [if_neg hE] at hok
        injection hok with hfold
        have hconn' : s'.connections = s.connections.filter (fun p =>
            decide (p.1 ∉ ScoringEngine.selectForEviction now s.connections
              (s.connections.length - mx + 1))) := by
          rw [← hfold]
          exact foldl_close_connections _ s
        have hVlen : (ScoringEngine.selectForEviction now s.connections
              (s.connections.length - mx + 1)).length
            = min (s.connections.length - mx + 1) (s.connections.length) :=
          selectForEviction_length now s.connections _ (by omega)
        have hVnodup := @selectForEviction_nodup now s.connections
          (s.connections.length - mx + 1) hnodup
        have hVsub : ∀ v ∈ ScoringEngine.selectForEviction now s.connections
            (s.connections.length - mx + 1), v ∈ s.connections.map (fun p => p.1) :=
          fun _ hv => selectForEviction_subset hv
        have hsplit := @List.length_eq_length_filter_add _ s.connections
          (fun p => decide (p.1 ∈ ScoringEngine.selectForEviction now s.connections
            (s.connections.length - mx + 1)))
        have hmem := length_filter_key_mem s.connections _ hnodup hVnodup hVsub
        have hneg : s.connections.filter (fun x => ! decide (x.1 ∈
              ScoringEngine.selectForEviction now s.connections
                (s.connections.length - mx + 1)))
            = s.connections.filter (fun p => decide (p.1 ∉
              ScoringEngine.selectForEviction now s.connections
                (s.connections.length - mx + 1))) := by
          congr 1
          funext p
          simp [decide_not]
        rw [hneg, hmem] at hsplit
        rw [hconn']
        have hcount : countConnectedUnwatched (s.connections.filter (fun p =>
              decide (p.1 ∉ ScoringEngine.selectForEviction now s.connections
                (s.connections.length - mx + 1))))
            ≤ (s.connections.filter (fun p =>
              decide (p.1 ∉ ScoringEngine.selectForEviction now s.connections
                (s.connections.length - mx + 1)))).length :=
          List.length_filter_le _ _
        omega
  · rw [if_neg hact] at hok
    injection hok with h
    subst h
    have h1 := countConnectedUnwatched_le_active s
    omega

/-- Configuration with LRU eviction and a cap of one connection. -/
def lruCap1Config : ResolvedPolyMongoConfig :=
  { mongoURI := "mongodb://localhost:27017", metadataDB := "polymongo-metadata",
    defaultDB := "Default-DB", idleTimeout := 60000, maxConnections := some 1,
    cacheConnections := true, disconnectOnIdle := true, evictionType := EvictionType.lru }

/-- Witness for claim C1 at a concrete input: LRU, cap 1, one CONNECTED
unwatched entry; enforceMax evicts it and the bound holds. -/
theorem enforceMax_bounds_connected_unwatched_witness :
    countConnectedUnwatched ((⟨[], 0, 0, 1⟩ : CMState).connections) ≤ 1 :=
  enforceMax_bounds_connected_unwatched lruCap1Config 1000
    ⟨[("a", mkInfo "a" 1 0 500 0 0 0)], 0, 0, 0⟩ 1 ⟨[], 0, 0, 1⟩
    rfl (by decide) (by decide)
    (Or.inr ⟨rfl, by decide⟩)
    (by decide)

/-- Configuration with timeout eviction, a 100 ms idle timeout, and a cap of
one connection. -/
def timeoutCap1Config : ResolvedPolyMongoConfig :=
  { mongoURI := "mongodb://localhost:27017", metadataDB := "polymongo-metadata",
    defaultDB := "Default-DB", idleTimeout := 100, maxConnections := some 1,
    cacheConnections := true, disconnectOnIdle := true, evictionType := EvictionType.timeout }

/-- Three CONNECTED unwatched connections of which only "a" is idle beyond
the timeout. -/
def timeoutOverConnections : List (String × ConnectionInfo) :=
  [("a", mkInfo "a" 1 0 500 0 0 0),
   ("b", mkInfo "b" 1 0 500 0 0 950),
   ("c", mkInfo "c" 1 0 500 0 0 950)]

/-- At time 1000, only "a" (idle for 1000 ms) is timeout-eligible. -/
theorem timeout_scenario_shouldEvict_a :
    TimeoutEvictionStrategy.shouldEvict 100 (mkInfo "a" 1 0 500 0 0 0) 1000 = true := by
  norm_num [TimeoutEvictionStrategy.shouldEvict, mkInfo, mkMeta, PRIORITY.NEVER_CLOSE]

/-- A connection last active at 950 (idle 50 ms) is not timeout-eligible at
time 1000. -/
theorem timeout_scenario_shouldEvict_b (n : String) :
    TimeoutEvictionStrategy.shouldEvict 100 (mkInfo n 1 0 500 0 0 950) 1000 = false := by
  norm_num [TimeoutEvictionStrategy.shouldEvict, mkInfo, mkMeta, PRIORITY.NEVER_CLOSE]

/-- The timeout strategy, asked for three victims, returns only "a". -/
theorem timeout_scenario_select :
    TimeoutEvictionStrategy.selectForEviction 100 1000 timeoutOverConnections 3 = ["a"] := by
  simp only [TimeoutEvictionStrategy.selectForEviction]
  have hfil : timeoutOverConnections.filter
      (fun e => TimeoutEvictionStrategy.shouldEvict 100 e.2 1000)
      = [("a", mkInfo "a" 1 0 500 0 0 0)] := by
    simp [timeoutOverConnections, List.filter_cons, timeout_scenario_shouldEvict_a,
      timeout_scenario_shouldEvict_b]
  rw [hfil]
  rfl

/-- Scenario 1 evaluated: enforceMax under the timeout strategy closes only
"a" and returns successfully with two CONNECTED unwatched entries left. -/
theorem timeout_scenario_enforceMax :
    ConnectionManager.enforceMaxConnections timeoutCap1Config 1000
        ConnectionManager.noCloseFailures ⟨timeoutOverConnections, 0, 0, 0⟩
      = Except.ok ⟨[("b", mkInfo "b" 1 0 500 0 0 950), ("c", mkInfo "c" 1 0 500 0 0 950)], 0, 0, 1⟩ := by
  simp only [ConnectionManager.enforceMaxConnections, timeoutCap1Config]
  have hA : ConnectionManager.getActiveConnectionCount ⟨timeoutOverConnections, 0, 0, 0⟩ = 3 := by
    decide
  have hW : ConnectionManager.getWatchConnectionCount ⟨timeoutOverConnections, 0, 0, 0⟩ = 0 := by
    decide
  rw [hA, hW]
  rw [if_pos (by norm_num)]
  rw [show (max 1 (((3:ℕ):ℤ) - ((1:ℕ):ℤ) + 1 - ((0:ℕ):ℤ))).toNat = 3 from by decide]
  simp only [EvictionStrategyFactory.selectForEviction]
  rw [timeout_scenario_select]
  rw [if_neg (by decide)]
  rfl

/-- Two watched low-score connections alongside two priority −1 unwatched
connections, all CONNECTED. -/
def lruWatchConnections : List (String × ConnectionInfo) :=
  [("w1", mkInfo "w1" 1 1 500 0 0 0),
   ("w2", mkInfo "w2" 1 1 500 0 0 0),
   ("c1", mkInfo "c1" 1 0 (-1) 0 0 900),
   ("c2", mkInfo "c2" 1 0 (-1) 0 0 900)]

/-- Candidate record for "w1" in the watch scenario. -/
def candW1 : ScoringEngine.Candidate :=
  { dbName := "w1", score := ScoringEngine.calculateScore 1000 (mkInfo "w1" 1 1 500 0 0 0),
    info := mkInfo "w1" 1 1 500 0 0 0 }

/-- Candidate record for "w2" in the watch scenario. -/
def candW2 : ScoringEngine.Candidate :=
  { dbName := "w2", score := ScoringEngine.calculateScore 1000 (mkInfo "w2" 1 1 500 0 0 0),
    info := mkInfo "w2" 1 1 500 0 0 0 }

/-- Candidate record for "c1" in the watch scenario. -/
def candC1 : ScoringEngine.Candidate :=
  { dbName := "c1", score := ScoringEngine.calculateScore 1000 (mkInfo "c1" 1 0 (-1) 0 0 900),
    info := mkInfo "c1" 1 0 (-1) 0 0 900 }

/-- Candidate record for "c2" in the watch scenario. -/
def candC2 : ScoringEngine.Candidate :=
  { dbName := "c2", score := ScoringEngine.calculateScore 1000 (mkInfo "c2" 1 0 (-1) 0 0 900),
    info := mkInfo "c2" 1 0 (-1) 0 0 900 }

/-- The idle watched connection scores below the priority −1 connection
(whose weight is half of `MAX_SAFE_INTEGER`). -/
theorem watch_scenario_score_le :
    ScoringEngine.calculateScore 1000 (mkInfo "w1" 1 1 500 0 0 0)
      ≤ ScoringEngine.calculateScore 1000 (mkInfo "c1" 1 0 (-1) 0 0 900) := by
  norm_num [ScoringEngine.calculateScore, ScoringEngine.calculatePriorityWeight, mkInfo, mkMeta,
    NumberMaxSafeInteger, PRIORITY.NEVER_CLOSE, SCORING_WEIGHTS.IDLE_TIME_WEIGHT,
    SCORING_WEIGHTS.PRIORITY_BASE_WEIGHT, max_def]

/-- The watch-scenario candidate list is already sorted by ascending score. -/
theorem watch_scenario_sorted :
    List.Sorted (fun a b : ScoringEngine.Candidate => a.score ≤ b.score)
      [candW1, candW2, candC1, candC2] := by
  refine List.sorted_cons.mpr ⟨?_, List.sorted_cons.mpr ⟨?_,
    List.sorted_cons.mpr ⟨?_, List.sorted_singleton _⟩⟩⟩
  · intro b hb
    rcases List.mem_cons.mp hb with rfl | hb
    · exact le_of_eq rfl
    rcases List.mem_cons.mp hb with rfl | hb
    · exact watch_scenario_score_le
    rcases List.mem_cons.mp hb with rfl | hb
    · exact watch_scenario_score_le
    · exact absurd hb (List.not_mem_nil _)
  · intro b hb
    rcases List.mem_cons.mp hb with rfl | hb
    · exact watch_scenario_score_le
    rcases List.mem_cons.mp hb with rfl | hb
    · exact watch_scenario_score_le
    · exact absurd hb (List.not_mem_nil _)
  · intro b hb
    rcases List.mem_cons.mp hb with rfl | hb
    · exact le_of_eq rfl
    · exact absurd hb (List.not_mem_nil _)

/-- The fallback pass over the watch scenario produces the four candidates in
insertion order (the sort is a no-op on the already-sorted list). -/
theorem watch_scenario_candidates :
    ScoringEngine.findEvictionCandidates 1000 lruWatchConnections false
      = [candW1, candW2, candC1, candC2] := by
  simp only [ScoringEngine.findEvictionCandidates]
  have hmap : (lruWatchConnections.filter (fun e => ScoringEngine.keepsCandidate false e.2)).map
      (fun e => { dbName := e.1, score := ScoringEngine.calculateScore 1000 e.2,
                  info := e.2 : ScoringEngine.Candidate })
      = [candW1, candW2, candC1, candC2] := rfl
  rw [hmap]
  exact List.Sorted.insertionSort_eq watch_scenario_sorted

/-- In the watch scenario the strict pass is empty, so the fallback selects
the two watched connections (lowest scores). -/
theorem watch_scenario_select :
    ScoringEngine.selectForEviction 1000 lruWatchConnections 2 = ["w1", "w2"] := by
  simp only [ScoringEngine.selectForEviction]
  rw [if_neg (by decide : ¬(2 = 0))]
  have hstrict : ScoringEngine.findEvictionCandidates 1000 lruWatchConnections true = [] := rfl
  rw [hstrict, if_pos (by decide), watch_scenario_candidates]
  rfl

/-- Scenario 2 evaluated: enforceMax under LRU evicts the two watched
connections and returns with the two CONNECTED unwatched entries intact. -/
theorem watch_scenario_enforceMax :
    ConnectionManager.enforceMaxConnections lruCap1Config 1000
        ConnectionManager.noCloseFailures ⟨lruWatchConnections, 0, 0, 0⟩
      = Except.ok ⟨[("c1", mkInfo "c1" 1 0 (-1) 0 0 900),
                    ("c2", mkInfo "c2" 1 0 (-1) 0 0 900)], 0, 0, 2⟩ := by
  simp only [ConnectionManager.enforceMaxConnections, lruCap1Config]
  have hA : ConnectionManager.getActiveConnectionCount ⟨lruWatchConnections, 0, 0, 0⟩ = 4 := by
    decide
  have hW : ConnectionManager.getWatchConnectionCount ⟨lruWatchConnections, 0, 0, 0⟩ = 2 := by
    decide
  rw [hA, hW, if_pos (by norm_num)]
  rw [show (max 1 (((4:ℕ):ℤ) - ((1:ℕ):ℤ) + 1 - ((2:ℕ):ℤ))).toNat = 2 from by decide]
  simp only [EvictionStrategyFactory.selectForEviction, LRUEvictionStrategy.selectForEviction]
  rw [watch_scenario_select]
  rw [if_neg (by decide)]
  rfl

/-- Two DISCONNECTED low-score entries alongside two CONNECTED unwatched
entries. -/
def lruDisconnectedConnections : List (String × ConnectionInfo) :=
  [("d1", mkInfo "d1" 0 0 500 0 0 0),
   ("d2", mkInfo "d2" 0 0 500 0 0 0),
   ("a1", mkInfo "a1" 1 0 500 0 0 900),
   ("a2", mkInfo "a2" 1 0 500 0 0 900)]

/-- Candidate record for "d1" in the disconnected scenario. -/
def candD1 : ScoringEngine.Candidate :=
  { dbName := "d1", score := ScoringEngine.calculateScore 1000 (mkInfo "d1" 0 0 500 0 0 0),
    info := mkInfo "d1" 0 0 500 0 0 0 }

/-- Candidate record for "d2" in the disconnected scenario. -/
def candD2 : ScoringEngine.Candidate :=
  { dbName := "d2", score := ScoringEngine.calculateScore 1000 (mkInfo "d2" 0 0 500 0 0 0),
    info := mkInfo "d2" 0 0 500 0 0 0 }

/-- Candidate record for "a1" in the disconnected scenario. -/
def candA1 : ScoringEngine.Candidate :=
  { dbName := "a1", score := ScoringEngine.calculateScore 1000 (mkInfo "a1" 1 0 500 0 0 900),
    info := mkInfo "a1" 1 0 500 0 0 900 }

/-- Candidate record for "a2" in the disconnected scenario. -/
def candA2 : ScoringEngine.Candidate :=
  { dbName := "a2", score := ScoringEngine.calculateScore 1000 (mkInfo "a2" 1 0 500 0 0 900),
    info := mkInfo "a2" 1 0 500 0 0 900 }

/-- A long-idle DISCONNECTED entry scores below a recently used CONNECTED
one; the score never consults the connection state. -/
theorem disconnected_scenario_score_le :
    ScoringEngine.calculateScore 1000 (mkInfo "d1" 0 0 500 0 0 0)
      ≤ ScoringEngine.calculateScore 1000 (mkInfo "a1" 1 0 500 0 0 900) := by
  norm_num [ScoringEngine.calculateScore, ScoringEngine.calculatePriorityWeight, mkInfo, mkMeta,
    NumberMaxSafeInteger, PRIORITY.NEVER_CLOSE, SCORING_WEIGHTS.IDLE_TIME_WEIGHT,
    SCORING_WEIGHTS.PRIORITY_BASE_WEIGHT, max_def]

/-- The disconnected-scenario candidate list is already sorted by ascending
score. -/
theorem disconnected_scenario_sorted :
    List.Sorted (fun a b : ScoringEngine.Candidate => a.score ≤ b.score)
      [candD1, candD2, candA1, candA2] := by
  refine List.sorted_cons.mpr ⟨?_, List.sorted_cons.mpr ⟨?_,
    List.sorted_cons.mpr ⟨?_, List.sorted_singleton _⟩⟩⟩
  · intro b hb
    rcases List.mem_cons.mp hb with rfl | hb
    · exact le_of_eq rfl
    rcases List.mem_cons.mp hb with rfl | hb
    · exact disconnected_scenario_score_le
    rcases List.mem_cons.mp hb with rfl | hb
    · exact disconnected_scenario_score_le
    · exact absurd hb (List.not_mem_nil _)
  · intro b hb
    rcases List.mem_cons.mp hb with rfl | hb
    · exact disconnected_scenario_score_le
    rcases List.mem_cons.mp hb with rfl | hb
    · exact disconnected_scenario_score_le
    · exact absurd hb (List.not_mem_nil _)
  · intro b hb
    rcases List.mem_cons.mp hb with rfl | hb
    · exact le_of_eq rfl
    · exact absurd hb (List.not_mem_nil _)

/-- The strict pass over the disconnected scenario keeps all four entries in
insertion order (none is watched or priority −1; the sort is a no-op). -/
theorem disconnected_scenario_candidates :
    ScoringEngine.findEvictionCandidates 1000 lruDisconnectedConnections true
      = [candD1, candD2, candA1, candA2] := by
  simp only [ScoringEngine.findEvictionCandidates]
  have hmap : (lruDisconnectedConnections.filter
      (fun e => ScoringEngine.keepsCandidate true e.2)).map
      (fun e => { dbName := e.1, score := ScoringEngine.calculateScore 1000 e.2,
                  info := e.2 : ScoringEngine.Candidate })
      = [candD1, candD2, candA1, candA2] := rfl
  rw [hmap]
  exact List.Sorted.insertionSort_eq disconnected_scenario_sorted

/-- The LRU selection takes the two DISCONNECTED entries (lowest scores). -/
theorem disconnected_scenario_select :
    ScoringEngine.selectForEviction 1000 lruDisconnectedConnections 2 = ["d1", "d2"] := by
  simp only [ScoringEngine.selectForEviction]
  rw [if_neg (by decide : ¬(2 = 0))]
  rw [disconnected_scenario_candidates]
  rw [if_neg (by decide)]
  rfl

/-- Scenario 3 evaluated: enforceMax under LRU closes the two DISCONNECTED
entries and returns with both CONNECTED unwatched entries intact. -/
theorem disconnected_scenario_enforceMax :
    ConnectionManager.enforceMaxConnections lruCap1Config 1000
        ConnectionManager.noCloseFailures ⟨lruDisconnectedConnections, 0, 0, 0⟩
      = Except.ok ⟨[("a1", mkInfo "a1" 1 0 500 0 0 900),
                    ("a2", mkInfo "a2" 1 0 500 0 0 900)], 0, 0, 2⟩ := by
  simp only [ConnectionManager.enforceMaxConnections, lruCap1Config]
  have hA : ConnectionManager.getActiveConnectionCount ⟨lruDisconnectedConnections, 0, 0, 0⟩ = 2 := by
    decide
  have hW : ConnectionManager.getWatchConnectionCount ⟨lruDisconnectedConnections, 0, 0, 0⟩ = 0 := by
    decide
  rw [hA, hW, if_pos (by norm_num)]
  rw [show (max 1 (((2:ℕ):ℤ) - ((1:ℕ):ℤ) + 1 - ((0:ℕ):ℤ))).toNat = 2 from by decide]
  simp only [EvictionStrategyFactory.selectForEviction, LRUEvictionStrategy.selectForEviction]
  rw [disconnected_scenario_select]
  rw [if_neg (by decide)]
  rfl

/-- Counterexample to claim C1 as stated: in each of three reachable-from-
arbitrary cache states, `enforceMaxConnections` returns without raising while
two CONNECTED unwatched connections remain against a cap of one: (i) the
timeout strategy returns fewer victims than requested; (ii) LRU's fallback
evicts the two watched low-score connections instead of the CONNECTED
unwatched ones; (iii) LRU evicts two DISCONNECTED entries whose scores are
lowest. -/
theorem enforceMax_exceeds_cap :
    timeoutCap1Config.maxConnections = some 1
    ∧ (ConnectionManager.enforceMaxConnections timeoutCap1Config 1000
        ConnectionManager.noCloseFailures ⟨timeoutOverConnections, 0, 0, 0⟩).map
        (fun st => countConnectedUnwatched st.connections) = Except.ok 2
    ∧ lruCap1Config.maxConnections = some 1
    ∧ (ConnectionManager.enforceMaxConnections lruCap1Config 1000
        ConnectionManager.noCloseFailures ⟨lruWatchConnections, 0, 0, 0⟩).map
        (fun st => countConnectedUnwatched st.connections) = Except.ok 2
    ∧ (ConnectionManager.enforceMaxConnections lruCap1Config 1000
        ConnectionManager.noCloseFailures ⟨lruDisconnectedConnections, 0, 0, 0⟩).map
        (fun st => countConnectedUnwatched st.connections) = Except.ok 2 := by
  refine ⟨rfl, ?_, rfl, ?_, ?_⟩
  · rw [timeout_scenario_enforceMax]
    rfl
  · rw [watch_scenario_enforceMax]
    rfl
  · rw [disconnected_scenario_enforceMax]
    rfl
